import Mathlib

/-!
Verification development for the youtube-downloader-api repository
(`src/app.py`).  The Python functions `extract_video_id`,
`get_random_api_key`, `get_video_info` and `download_audio` are embedded
as executable Lean definitions; external effects (the YouTube Data API,
the yt-dlp subprocess, ffmpeg, the filesystem, `random.choice`) are
modelled by explicit environment parameters and an explicit directory
listing threaded through the handler.
-/

deriving instance DecidableEq for Except

/-- Character-list view of strings; Python string operations are modelled
on `List Char`. -/
abbrev Chars := List Char

/-- Prefix of `s` strictly before the first occurrence of the pattern
`pat` (the whole of `s` when `pat` does not occur).  Models the first
element of a Python `str.split`. -/
def beforeFirst (pat : Chars) : Chars → Chars
  | [] => []
  | c :: rest =>
    if pat.isPrefixOf (c :: rest) then [] else c :: beforeFirst pat rest

/-- Remainder of `s` strictly after the first occurrence of `pat`, or
`none` when `pat` does not occur in `s` (for nonempty `pat`). -/
def afterFirst (pat : Chars) : Chars → Option Chars
  | [] => none
  | c :: rest =>
    if pat.isPrefixOf (c :: rest) then some (List.drop pat.length (c :: rest))
    else afterFirst pat rest

/-- Python substring containment, `pat in s`, for nonempty `pat`. -/
def occursB (pat : Chars) : Chars → Bool
  | [] => pat.isEmpty
  | c :: rest => pat.isPrefixOf (c :: rest) || occursB pat rest

/-- Fuelled worker for `pySplit`; the fuel bounds the number of
occurrences of the separator, so `s.length` is always enough. -/
def pySplitF (pat : Chars) : Nat → Chars → List Chars
  | 0, s => [s]
  | n + 1, s =>
    match afterFirst pat s with
    | none => [s]
    | some t => beforeFirst pat s :: pySplitF pat n t

/-- Python `s.split(pat)` for a nonempty separator `pat`: the segments of
`s` between consecutive occurrences of `pat`. -/
def pySplit (pat : Chars) (s : Chars) : List Chars :=
  pySplitF pat s.length s

/-- Python exception kinds raised by `extract_video_id`. -/
inductive PyErr where
  | valueError (msg : String)
  | indexError
deriving DecidableEq

/-- The `str(e)` text of the modelled Python exceptions. -/
def pyErrMsg : PyErr → String
  | .valueError m => m
  | .indexError => "list index out of range"

def watchMarker : Chars := "youtube.com/watch".data

def vMarker : Chars := "v=".data

def shortMarker : Chars := "youtu.be/".data

/-- Embedding of `extract_video_id` from `src/app.py`:
Python `url.split("v=")[1].split("&")[0]` for the watch form,
`url.split("youtu.be/")[1].split("?")[0]` for the short-link form,
`ValueError` otherwise; indexing `[1]` raises `IndexError` when the
split produced a single element. -/
def extract_video_id (url : String) : Except PyErr String :=
  let u := url.data
  if occursB watchMarker u then
    match (pySplit vMarker u)[1]? with
    | some seg => .ok ⟨(pySplit ['&'] seg).headD []⟩
    | none => .error .indexError
  else if occursB shortMarker u then
    match (pySplit shortMarker u)[1]? with
    | some seg => .ok ⟨(pySplit ['?'] seg).headD []⟩
    | none => .error .indexError
  else .error (.valueError "Invalid YouTube URL")

/-- The URL-extraction rule exactly as the specification words it:
the substring after the known marker, truncated at the next `&` or `?`
(whichever comes first) or end-of-string, for both URL forms. -/
def claimedExtractId (url : String) : Except PyErr String :=
  let u := url.data
  if occursB watchMarker u then
    match afterFirst vMarker u with
    | some t => .ok ⟨beforeFirst ['?'] (beforeFirst ['&'] t)⟩
    | none => .error .indexError
  else if occursB shortMarker u then
    match afterFirst shortMarker u with
    | some t => .ok ⟨beforeFirst ['?'] (beforeFirst ['&'] t)⟩
    | none => .error .indexError
  else .error (.valueError "Invalid YouTube URL")

/-- The extraction rule the code actually implements, stated in
first-occurrence terms: the substring after the first `v=` (watch form)
up to the next `v=` or end, truncated at the next `&` or end — a `?` is
kept; symmetrically the short-link form truncates at the next `?` only. -/
def amendedExtractId (url : String) : Except PyErr String :=
  let u := url.data
  if occursB watchMarker u then
    match afterFirst vMarker u with
    | some t => .ok ⟨beforeFirst ['&'] (beforeFirst vMarker t)⟩
    | none => .error .indexError
  else if occursB shortMarker u then
    match afterFirst shortMarker u with
    | some t => .ok ⟨beforeFirst ['?'] (beforeFirst shortMarker t)⟩
    | none => .error .indexError
  else .error (.valueError "Invalid YouTube URL")

/-! ## The audio-download handler (`download_audio` in `src/app.py`)

The filesystem is modelled as the listing of the download folder, a list
of file names threaded through the handler.  External effects are an
environment: the outcome of the metadata (`extract_info`) probe, the
outcome of the single yt-dlp subprocess invocation (on success the
extension of the one artifact it creates from the `<id>.%(ext)s` output
template), and the outcomes of the ffmpeg invocation and of `os.remove`.
-/

/-- Python `s.startswith(p)`. -/
def pyStartsWith (p s : String) : Bool := p.data.isPrefixOf s.data

/-- Outcomes of the external capabilities used by one request of the
download handler. -/
structure DlEnv where
  infoTitle : Option String
  download : Except String String
  ffmpegOk : Bool
  ffmpegErr : String
  ffmpegCreates : Bool
  removeOk : Bool
deriving DecidableEq

/-- The HTTP-level outcome of the download handler: a file response with
its attachment name, or an error status with its JSON error message. -/
inductive DlResult where
  | ok (filePath : String) (downloadName : String)
  | err (status : Nat) (msg : String)
deriving DecidableEq

/-- Result, final folder listing, and invocation counts of one run of
the download handler. -/
structure DlOut where
  result : DlResult
  fs : List String
  ytdlpCalls : Nat
  ffmpegCalls : Nat
deriving DecidableEq

/-- The loop at lines 357-361 of `src/app.py`: the first file in the
folder listing that starts with the unique id and is not `<id>.mp3`. -/
def findDownloaded (uid : String) : List String → Option String
  | [] => none
  | f :: rest =>
    if pyStartsWith uid f && f != uid ++ ".mp3" then some f
    else findDownloaded uid rest

/-- Embedding of the `/api/download/audio` handler `download_audio`:
400 when `url` is missing; metadata-probe failure only defaults the
title to `"audio"`; exactly one yt-dlp invocation, whose failure is a
500 with the stderr detail; the downloaded artifact is looked up by its
unique-id prefix; ffmpeg converts it to `<id>.mp3` and on ffmpeg success
the artifact is deleted best-effort; finally the handler checks that
`<id>.mp3` exists and sends it as `<title>.mp3`. -/
def download_audio (env : DlEnv) (uid : String) (fs0 : List String)
    (urlParam : Option String) : DlOut :=
  match urlParam with
  | none => ⟨.err 400 "URL parameter is required", fs0, 0, 0⟩
  | some _url =>
    let title := env.infoTitle.getD "audio"
    match env.download with
    | .error e => ⟨.err 500 ("Video download failed: " ++ e), fs0, 1, 0⟩
    | .ok ext =>
      let fs1 := fs0 ++ [uid ++ "." ++ ext]
      match findDownloaded uid fs1 with
      | none => ⟨.err 500 "Could not find downloaded file", fs1, 1, 0⟩
      | some f =>
        if env.ffmpegOk then
          let fs2 := if env.ffmpegCreates then fs1 ++ [uid ++ ".mp3"] else fs1
          let fs3 := if env.removeOk then fs2.filter (fun x => x != f) else fs2
          if (uid ++ ".mp3") ∈ fs3 then
            ⟨.ok (uid ++ ".mp3") (title ++ ".mp3"), fs3, 1, 1⟩
          else ⟨.err 500 "MP3 file not created", fs3, 1, 1⟩
        else ⟨.err 500 ("Audio conversion failed: " ++ env.ffmpegErr), fs1, 1, 1⟩

/-- The stream-extractor behaviour as the specification claims it: an
ordered list of per-client-profile attempt outcomes is tried in order,
succeeding at the first successful profile and failing with the detail
only when every profile has been exhausted. -/
def claimedAdapter : List (Except String String) → Except String String
  | [] => .error "no client profiles configured"
  | [a] => a
  | a :: rest =>
    match a with
    | .ok v => .ok v
    | .error _ => claimedAdapter rest

/-! ## The info endpoint (`get_video_info` in `src/app.py`)

The YouTube Data API call is modelled by an `ApiOutcome` parameter: an
`HttpError` with its status, a successful item list, or another raised
exception.  `random.choice` over the key list is modelled by an
arbitrary draw index reduced modulo the pool size, and the ISO-8601
duration conversion by an opaque function parameter. -/

/-- One item of the provider response, as the handler reads it:
`snippet` fields, an optional `statistics.viewCount`, and the raw
`contentDetails.duration` string. -/
structure ProviderVideo where
  title : String
  author : String
  description : String
  thumbUrl : String
  viewCount : Option Nat
  duration : String
deriving DecidableEq

/-- The JSON body the handler builds on success. -/
structure VideoInfo where
  title : String
  author : String
  description : String
  thumbnail_url : String
  views : Nat
  length_seconds : Nat
deriving DecidableEq

/-- Outcome of the `videos().list(...).execute()` call. -/
inductive ApiOutcome where
  | httpError (status : Nat) (msg : String)
  | success (items : List ProviderVideo)
  | exc (msg : String)
deriving DecidableEq

/-- An HTTP response of the info endpoint: 200 with the metadata JSON,
or an error status whose JSON body carries the error message. -/
inductive InfoResp where
  | okJson (v : VideoInfo)
  | errJson (status : Nat) (msg : String)
deriving DecidableEq

/-- Embedding of `get_random_api_key` from `src/app.py`: raises
`ValueError` when the key pool is empty, otherwise `random.choice` over
the pool, modelled by the draw `choice` reduced modulo the pool size. -/
def get_random_api_key (keys : List String) (choice : Nat) : Except String String :=
  if keys.isEmpty then .error "No YouTube API keys available"
  else .ok (keys.getD (choice % keys.length) "")

/-- Embedding of the `/api/info` handler `get_video_info` from
`src/app.py`: 400 when `url` is missing; the try-block runs
`extract_video_id` and `get_random_api_key`, whose exceptions the
generic handler turns into 500 with `str(e)`; an `HttpError` with
status 403 becomes 429, any other `HttpError` and any other exception
become 500; an empty item list becomes 404; otherwise the metadata JSON
is built from the first item, with `statistics.viewCount` defaulting to
0 when absent. -/
def get_video_info (keys : List String) (choice : Nat) (api : ApiOutcome)
    (convDur : String → Nat) (urlParam : Option String) : InfoResp :=
  match urlParam with
  | none => .errJson 400 "URL parameter is required"
  | some url =>
    match extract_video_id url with
    | .error e => .errJson 500 (pyErrMsg e)
    | .ok _vid =>
      match get_random_api_key keys choice with
      | .error m => .errJson 500 m
      | .ok _key =>
        match api with
        | .httpError s m =>
          if s = 403 then .errJson 429 "YouTube API quota exceeded or API key invalid"
          else .errJson 500 m
        | .exc m => .errJson 500 m
        | .success items =>
          match items with
          | [] => .errJson 404 "Video not found"
          | v :: _ =>
            .okJson ⟨v.title, v.author, v.description, v.thumbUrl,
              v.viewCount.getD 0, convDur v.duration⟩

theorem beforeFirst_cons (pat : Chars) (c : Char) (rest : Chars) :
    beforeFirst pat (c :: rest) =
      if pat.isPrefixOf (c :: rest) then [] else c :: beforeFirst pat rest := rfl

theorem afterFirst_cons (pat : Chars) (c : Char) (rest : Chars) :
    afterFirst pat (c :: rest) =
      if pat.isPrefixOf (c :: rest) then some (List.drop pat.length (c :: rest))
      else afterFirst pat rest := rfl

theorem occursB_cons (pat : Chars) (c : Char) (rest : Chars) :
    occursB pat (c :: rest) = (pat.isPrefixOf (c :: rest) || occursB pat rest) := rfl

theorem pySplitF_succ (pat : Chars) (n : Nat) (s : Chars) :
    pySplitF pat (n + 1) s =
      match afterFirst pat s with
      | none => [s]
      | some t => beforeFirst pat s :: pySplitF pat n t := rfl

theorem afterFirst_length_lt (pat : Chars) (hpat : pat ≠ []) :
    ∀ {s t : Chars}, afterFirst pat s = some t → t.length < s.length := by
  intro s
  induction s with
  | nil => intro t h; simp [afterFirst] at h
  | cons c rest ih =>
    intro t h
    cases hp : pat.isPrefixOf (c :: rest) with
    | true =>
      rw [afterFirst_cons, hp] at h
      simp only [if_pos] at h
      cases h
      have hlen : 1 ≤ pat.length := by
        cases pat with
        | nil => exact absurd rfl hpat
        | cons p ps => simp
      simp only [List.length_drop, List.length_cons]
      omega
    | false =>
      rw [afterFirst_cons, hp] at h
      simp only [Bool.false_eq_true, if_false] at h
      have := ih h
      simp only [List.length_cons]
      omega

theorem pySplitF_congr (pat : Chars) (hpat : pat ≠ []) :
    ∀ (n m : Nat) (s : Chars), s.length ≤ n → s.length ≤ m →
      pySplitF pat n s = pySplitF pat m s := by
  intro n
  induction n with
  | zero =>
    intro m s hn _
    have hs : s = [] := List.eq_nil_of_length_eq_zero (Nat.le_zero.mp hn)
    subst hs
    cases m with
    | zero => rfl
    | succ m' => simp [pySplitF_succ, afterFirst, pySplitF]
  | succ n' ih =>
    intro m s hn hm
    cases m with
    | zero =>
      have hs : s = [] := List.eq_nil_of_length_eq_zero (Nat.le_zero.mp hm)
      subst hs
      simp [pySplitF_succ, afterFirst, pySplitF]
    | succ m' =>
      rw [pySplitF_succ, pySplitF_succ]
      cases h : afterFirst pat s with
      | none => rfl
      | some t =>
        have hlt := afterFirst_length_lt pat hpat h
        have h1 : t.length ≤ n' := by omega
        have h2 : t.length ≤ m' := by omega
        simp only [ih m' t h1 h2]

/-- Unfolding equation for `pySplit` in terms of first-occurrence
semantics. -/
theorem pySplit_eq (pat : Chars) (hpat : pat ≠ []) (s : Chars) :
    pySplit pat s =
      match afterFirst pat s with
      | none => [s]
      | some t => beforeFirst pat s :: pySplit pat t := by
  unfold pySplit
  cases s with
  | nil => simp [pySplitF, afterFirst]
  | cons c rest =>
    simp only [List.length_cons]
    rw [pySplitF_succ]
    cases h : afterFirst pat (c :: rest) with
    | none => rfl
    | some t =>
      have hlt := afterFirst_length_lt pat hpat h
      have h1 : t.length ≤ rest.length := by
        simp only [List.length_cons] at hlt; omega
      simp only [pySplitF_congr pat hpat rest.length t.length t h1 (Nat.le_refl _)]

theorem beforeFirst_of_none (pat : Chars) :
    ∀ {s : Chars}, afterFirst pat s = none → beforeFirst pat s = s := by
  intro s
  induction s with
  | nil => intro _; rfl
  | cons c rest ih =>
    intro h
    cases hp : pat.isPrefixOf (c :: rest) with
    | true =>
      rw [afterFirst_cons, hp] at h
      simp at h
    | false =>
      rw [afterFirst_cons, hp] at h
      simp only [Bool.false_eq_true, if_false] at h
      rw [beforeFirst_cons, hp]
      simp only [Bool.false_eq_true, if_false]
      rw [ih h]

theorem headD_pySplit (pat : Chars) (hpat : pat ≠ []) (s : Chars) :
    (pySplit pat s).headD [] = beforeFirst pat s := by
  rw [pySplit_eq pat hpat]
  cases h : afterFirst pat s with
  | none => simp [beforeFirst_of_none pat h]
  | some t => simp

theorem get1_pySplit (pat : Chars) (hpat : pat ≠ []) (s : Chars) :
    (pySplit pat s)[1]? = (afterFirst pat s).map (beforeFirst pat) := by
  rw [pySplit_eq pat hpat]
  cases h : afterFirst pat s with
  | none => simp
  | some t =>
    simp only [Option.map_some]
    rw [List.getElem?_cons_succ]
    rw [pySplit_eq pat hpat t]
    cases h2 : afterFirst pat t with
    | none => simp [beforeFirst_of_none pat h2]
    | some u => simp

/-- Claim C3, counterexample: on a watch URL whose identifier part is
followed by a `?`, the code keeps the `?` and everything after it, while
the claimed rule truncates at the `?`; so the claimed extraction rule is
false of the code. -/
theorem C3_counterexample :
    extract_video_id "https://www.youtube.com/watch?v=abc?def" = .ok "abc?def"
    ∧ claimedExtractId "https://www.youtube.com/watch?v=abc?def" = .ok "abc"
    ∧ extract_video_id "https://www.youtube.com/watch?v=abc?def"
        ≠ claimedExtractId "https://www.youtube.com/watch?v=abc?def" := by
  refine ⟨by decide, by decide, by decide⟩

/-- Claim C3, amended: the normalizer extracts the segment after the
first marker up to the next occurrence of the marker or end-of-string,
then truncates it at the next `&` (watch form) respectively `?`
(short-link form) or end-of-string; a `?` does not terminate a watch-form
identifier and an `&` does not terminate a short-link identifier.  It
fails with the invalid-URL error when neither host marker occurs. -/
theorem C3_amended (url : String) : extract_video_id url = amendedExtractId url := by
  unfold extract_video_id amendedExtractId
  simp only [get1_pySplit vMarker (by decide), get1_pySplit shortMarker (by decide),
    headD_pySplit ['&'] (by decide), headD_pySplit ['?'] (by decide)]
  cases h1 : afterFirst vMarker url.data <;>
    cases h2 : afterFirst shortMarker url.data <;>
      simp [h1, h2]

/-- Claim C7, counterexample: a watch URL ending in `v=` makes the
normalizer return the empty identifier successfully instead of failing. -/
theorem C7_counterexample :
    extract_video_id "https://www.youtube.com/watch?v=" = .ok "" := by decide

/-- Claim C7, amended: on a URL containing the watch host marker whose
first `v=` occurrence is at the very end of the string, the normalizer
succeeds with the empty identifier; it does not fail.  (It fails only
when the watch marker is present without any `v=`, with an index error,
or when neither host marker is present, with the invalid-URL error.) -/
theorem C7_amended (url : String)
    (h1 : occursB watchMarker url.data = true)
    (h2 : afterFirst vMarker url.data = some []) :
    extract_video_id url = .ok "" := by
  unfold extract_video_id
  simp only [get1_pySplit vMarker (by decide), h1, h2, if_true, Option.map_some]
  decide

/-- Witness for `C7_amended` at the concrete malformed URL. -/
theorem C7_amended_witness :
    extract_video_id "https://www.youtube.com/watch?v=" = .ok "" :=
  C7_amended "https://www.youtube.com/watch?v=" (by decide) (by decide)

theorem isPrefixOf_self_append (l m : Chars) : l.isPrefixOf (l ++ m) = true := by
  induction l with
  | nil => simp
  | cons a as ih => simp [List.isPrefixOf, ih]

theorem pyStartsWith_self_append (u v : String) :
    pyStartsWith u (u ++ v) = true := by
  simp only [pyStartsWith, String.data_append]
  exact isPrefixOf_self_append u.data v.data

theorem string_data_inj {a b : String} (h : a.data = b.data) : a = b :=
  congrArg String.mk h

theorem append_dot_ext_ne (uid ext : String) (h : ext ≠ "mp3") :
    uid ++ "." ++ ext ≠ uid ++ ".mp3" := by
  intro he
  apply h
  have hd := congrArg String.data he
  simp only [String.data_append] at hd
  rw [List.append_assoc] at hd
  have h2 := List.append_cancel_left hd
  exact string_data_inj (List.cons_injective h2)

theorem findDownloaded_clean (uid a : String) (fs0 : List String)
    (h0 : ∀ f ∈ fs0, pyStartsWith uid f = false)
    (ha : pyStartsWith uid a = true) (hne : a ≠ uid ++ ".mp3") :
    findDownloaded uid (fs0 ++ [a]) = some a := by
  induction fs0 with
  | nil => simp [findDownloaded, ha, hne]
  | cons f fs ih =>
    have hf : pyStartsWith uid f = false := h0 f (by simp)
    simp only [List.cons_append, findDownloaded, hf, Bool.false_and,
      Bool.false_eq_true, if_false]
    exact ih (fun g hg => h0 g (by simp [hg]))

theorem pyStartsWith_dot (uid v : String) :
    pyStartsWith uid (uid ++ "." ++ v) = true := by
  simp only [pyStartsWith, String.data_append, List.append_assoc]
  exact isPrefixOf_self_append _ _

/-- Success-path evaluation of the download handler, shared by several
theorems below: with a successful non-mp3 download and a successful,
output-creating ffmpeg run, the handler returns the mp3 file response,
the mp3 is on disk, and the artifact is gone exactly when the
best-effort delete succeeded. -/
theorem download_success_eval
    (env : DlEnv) (uid ext url : String) (fs0 : List String)
    (hdl : env.download = .ok ext)
    (hext : ext ≠ "mp3")
    (hff : env.ffmpegOk = true)
    (hcr : env.ffmpegCreates = true)
    (h0 : ∀ f ∈ fs0, pyStartsWith uid f = false) :
    (download_audio env uid fs0 (some url)).result
        = .ok (uid ++ ".mp3") (env.infoTitle.getD "audio" ++ ".mp3")
    ∧ (download_audio env uid fs0 (some url)).ffmpegCalls = 1
    ∧ (uid ++ ".mp3") ∈ (download_audio env uid fs0 (some url)).fs
    ∧ (env.removeOk = true →
        (uid ++ "." ++ ext) ∉ (download_audio env uid fs0 (some url)).fs)
    ∧ (env.removeOk = false →
        (uid ++ "." ++ ext) ∈ (download_audio env uid fs0 (some url)).fs) := by
  have hpre : pyStartsWith uid (uid ++ "." ++ ext) = true := pyStartsWith_dot uid ext
  have hne : uid ++ "." ++ ext ≠ uid ++ ".mp3" := append_dot_ext_ne uid ext hext
  have hfind := findDownloaded_clean uid (uid ++ "." ++ ext) fs0 h0 hpre hne
  have hmp3ne : (uid ++ ".mp3") ≠ (uid ++ "." ++ ext) := fun h => hne h.symm
  cases hrm : env.removeOk with
  | false =>
    have hmem : (uid ++ ".mp3") ∈ (fs0 ++ [uid ++ "." ++ ext]) ++ [uid ++ ".mp3"] := by
      simp
    simp only [download_audio, hdl, hfind, hff, hcr, hrm, if_true, Bool.false_eq_true,
      if_false, if_pos hmem]
    refine ⟨by trivial, by trivial, by simp, ?_, ?_⟩
    · intro h; cases h
    · intro _; simp
  | true =>
    have hmem : (uid ++ ".mp3") ∈
        ((fs0 ++ [uid ++ "." ++ ext]) ++ [uid ++ ".mp3"]).filter
          (fun x => x != uid ++ "." ++ ext) := by
      rw [List.mem_filter]
      refine ⟨by simp, by simp [hmp3ne]⟩
    simp only [download_audio, hdl, hfind, hff, hcr, hrm, if_true, if_pos hmem]
    refine ⟨by trivial, by trivial, hmem, ?_, ?_⟩
    · intro _
      intro hcontra
      rw [List.mem_filter] at hcontra
      simp at hcontra
    · intro h; cases h

/-- Claim C1: when the download succeeds with a non-mp3 artifact, the
handler invokes the transcoder, `<id>.mp3` is produced, and the original
`<id>.<ext>` artifact is deleted; deletion is best-effort, so when the
delete fails the artifact stays but the outcome is still the same
successful file response. -/
theorem C1_transcode_and_cleanup
    (env : DlEnv) (uid ext url : String) (fs0 : List String)
    (hdl : env.download = .ok ext)
    (hext : ext ≠ "mp3")
    (hff : env.ffmpegOk = true)
    (hcr : env.ffmpegCreates = true)
    (h0 : ∀ f ∈ fs0, pyStartsWith uid f = false) :
    (download_audio env uid fs0 (some url)).result
        = .ok (uid ++ ".mp3") (env.infoTitle.getD "audio" ++ ".mp3")
    ∧ (download_audio env uid fs0 (some url)).ffmpegCalls = 1
    ∧ (uid ++ ".mp3") ∈ (download_audio env uid fs0 (some url)).fs
    ∧ (env.removeOk = true →
        (uid ++ "." ++ ext) ∉ (download_audio env uid fs0 (some url)).fs)
    ∧ (env.removeOk = false →
        (uid ++ "." ++ ext) ∈ (download_audio env uid fs0 (some url)).fs) :=
  download_success_eval env uid ext url fs0 hdl hext hff hcr h0

/-- Witness for `C1_transcode_and_cleanup` at a concrete environment. -/
theorem C1_witness :
    (download_audio ⟨some "My Song", Except.ok "m4a", true, "", true, true⟩
        "abc" [] (some "u")).result = .ok ("abc" ++ ".mp3") ("My Song" ++ ".mp3")
    ∧ ("abc" ++ ".mp3") ∈ (download_audio ⟨some "My Song", Except.ok "m4a", true, "", true, true⟩
        "abc" [] (some "u")).fs
    ∧ ("abc" ++ "." ++ "m4a") ∉ (download_audio ⟨some "My Song", Except.ok "m4a", true, "", true, true⟩
        "abc" [] (some "u")).fs := by
  have h := C1_transcode_and_cleanup ⟨some "My Song", Except.ok "m4a", true, "", true, true⟩
      "abc" "m4a" "u" [] rfl (by decide) rfl rfl (by simp)
  exact ⟨h.1, h.2.2.1, h.2.2.2.1 rfl⟩

/-- Claim C2, counterexample: the expected output `abc.mp3` is absent
while the sibling `abc.opus` (same unique id, different extension) is
present, yet the handler returns the output-missing failure instead of
recovering the sibling. -/
theorem C2_counterexample :
    (download_audio ⟨some "t", Except.ok "opus", true, "", false, false⟩
        "abc" [] (some "u")).result = .err 500 "MP3 file not created"
    ∧ "abc.opus" ∈ (download_audio ⟨some "t", Except.ok "opus", true, "", false, false⟩
        "abc" [] (some "u")).fs := by
  refine ⟨by decide, by decide⟩

/-- Claim C2, amended: the sibling search over files sharing the unique
id happens before transcoding, to locate the downloaded artifact; at the
output-verification step the handler fails with the output-missing error
whenever `<id>.mp3` does not exist, even when a sibling such as
`<id>.opus` exists at that moment. -/
theorem C2_amended
    (env : DlEnv) (uid ext url : String) (fs0 : List String)
    (hdl : env.download = .ok ext)
    (hext : ext ≠ "mp3")
    (hff : env.ffmpegOk = true)
    (hcr : env.ffmpegCreates = false)
    (hrm : env.removeOk = false)
    (h0 : ∀ f ∈ fs0, pyStartsWith uid f = false) :
    (download_audio env uid fs0 (some url)).result = .err 500 "MP3 file not created"
    ∧ (uid ++ "." ++ ext) ∈ (download_audio env uid fs0 (some url)).fs := by
  have hpre : pyStartsWith uid (uid ++ "." ++ ext) = true := pyStartsWith_dot uid ext
  have hne : uid ++ "." ++ ext ≠ uid ++ ".mp3" := append_dot_ext_ne uid ext hext
  have hfind := findDownloaded_clean uid (uid ++ "." ++ ext) fs0 h0 hpre hne
  have hnotmem : (uid ++ ".mp3") ∉ fs0 ++ [uid ++ "." ++ ext] := by
    intro hm
    rcases List.mem_append.mp hm with hl | hr
    · have := h0 _ hl
      rw [pyStartsWith_self_append uid ".mp3"] at this
      cases this
    · rw [List.mem_singleton] at hr
      exact hne hr.symm
  simp only [download_audio, hdl, hfind, hff, hcr, hrm, if_true, Bool.false_eq_true,
    if_false, if_neg hnotmem]
  exact ⟨by trivial, by simp⟩

/-- Witness for `C2_amended` at a concrete environment. -/
theorem C2_amended_witness :
    (download_audio ⟨some "s", Except.ok "opus", true, "", false, false⟩
        "xyz" [] (some "u")).result = .err 500 "MP3 file not created"
    ∧ ("xyz" ++ "." ++ "opus") ∈ (download_audio ⟨some "s", Except.ok "opus", true, "", false, false⟩
        "xyz" [] (some "u")).fs :=
  C2_amended ⟨some "s", Except.ok "opus", true, "", false, false⟩
    "xyz" "opus" "u" [] rfl (by decide) rfl rfl rfl (by simp)

/-- Claim C5, counterexample: with a first attempt that fails and a
second that would succeed, the claimed profile-retrying adapter
succeeds, but the handler makes exactly one yt-dlp invocation and fails
with the first attempt's stderr — there is no retry with a next
profile. -/
theorem C5_counterexample :
    claimedAdapter [Except.error "blocked", Except.ok "m4a"] = .ok "m4a"
    ∧ (download_audio ⟨some "t", Except.error "blocked", true, "", true, true⟩
        "abc" [] (some "u")).result = .err 500 "Video download failed: blocked"
    ∧ (download_audio ⟨some "t", Except.error "blocked", true, "", true, true⟩
        "abc" [] (some "u")).ytdlpCalls = 1 := by
  refine ⟨by decide, by decide, by decide⟩

/-- Claim C5, amended: for every request with a `url` parameter the
handler invokes yt-dlp exactly once (there is no list of client
profiles), and when that single invocation fails the request fails
immediately with a 500 carrying the subprocess stderr detail, the
filesystem untouched and ffmpeg never invoked. -/
theorem C5_amended (env : DlEnv) (uid url : String) (fs0 : List String) :
    (download_audio env uid fs0 (some url)).ytdlpCalls = 1
    ∧ ∀ e, env.download = .error e →
        download_audio env uid fs0 (some url)
          = ⟨.err 500 ("Video download failed: " ++ e), fs0, 1, 0⟩ := by
  constructor
  · cases hdl : env.download with
    | error e => simp [download_audio, hdl]
    | ok ext =>
      cases hf : findDownloaded uid (fs0 ++ [uid ++ "." ++ ext]) with
      | none => simp [download_audio, hdl, hf]
      | some f =>
        cases hok : env.ffmpegOk with
        | false => simp [download_audio, hdl, hf, hok]
        | true =>
          simp only [download_audio, hdl, hf, hok, if_true]
          split <;> try rfl
          all_goals (split <;> try rfl)
          all_goals split <;> rfl
  · intro e he
    simp [download_audio, he]

/-- Witness for `C5_amended` at a concrete failing environment. -/
theorem C5_amended_witness :
    download_audio ⟨some "t", Except.error "boom", true, "", true, true⟩ "zz" [] (some "u")
      = ⟨.err 500 ("Video download failed: " ++ "boom"), [], 1, 0⟩ :=
  (C5_amended ⟨some "t", Except.error "boom", true, "", true, true⟩ "zz" "u" []).2 "boom" rfl

/-- Claim C6, counterexample: when ffmpeg fails, the handler returns the
conversion-failure error and exits leaving the downloaded artifact
`abc.m4a` on disk, neither deleted nor handed off to any response. -/
theorem C6_counterexample :
    (download_audio ⟨some "t", Except.ok "m4a", false, "boom", false, false⟩
        "abc" [] (some "u")).result = .err 500 "Audio conversion failed: boom"
    ∧ "abc.m4a" ∈ (download_audio ⟨some "t", Except.ok "m4a", false, "boom", false, false⟩
        "abc" [] (some "u")).fs := by
  refine ⟨by decide, by decide⟩

/-- Claim C6, amended: the only deletion the handler performs is the
best-effort removal of the downloaded artifact after a successful ffmpeg
conversion; on a transcoding failure the handler exits with an error
response while the unique-id-named artifact remains in the working
directory, and the final `<id>.mp3` of a successful request is left on
disk when the handler returns it. -/
theorem C6_amended (env : DlEnv) (uid ext url : String) (fs0 : List String)
    (hdl : env.download = .ok ext)
    (hext : ext ≠ "mp3")
    (hff : env.ffmpegOk = false)
    (h0 : ∀ f ∈ fs0, pyStartsWith uid f = false) :
    (download_audio env uid fs0 (some url)).result
        = .err 500 ("Audio conversion failed: " ++ env.ffmpegErr)
    ∧ (uid ++ "." ++ ext) ∈ (download_audio env uid fs0 (some url)).fs := by
  have hpre : pyStartsWith uid (uid ++ "." ++ ext) = true := pyStartsWith_dot uid ext
  have hne : uid ++ "." ++ ext ≠ uid ++ ".mp3" := append_dot_ext_ne uid ext hext
  have hfind := findDownloaded_clean uid (uid ++ "." ++ ext) fs0 h0 hpre hne
  simp only [download_audio, hdl, hfind, hff, Bool.false_eq_true, if_false]
  exact ⟨by trivial, by simp⟩

/-- Witness for `C6_amended` at a concrete environment. -/
theorem C6_amended_witness :
    (download_audio ⟨some "v", Except.ok "webm", false, "sig", false, true⟩
        "qq" [] (some "u")).result = .err 500 ("Audio conversion failed: " ++ "sig")
    ∧ ("qq" ++ "." ++ "webm") ∈ (download_audio ⟨some "v", Except.ok "webm", false, "sig", false, true⟩
        "qq" [] (some "u")).fs :=
  C6_amended ⟨some "v", Except.ok "webm", false, "sig", false, true⟩
    "qq" "webm" "u" [] rfl (by decide) rfl (by simp)

/-- Claim C4: status mapping of the info endpoint — 400 when `url` is
missing; with a well-formed URL and a nonempty key pool, 404 on an empty
provider item list, 429 on a provider HTTP 403, 500 on any other
provider HTTP error and on any other raised exception; and every error
response the endpoint can produce uses one of the statuses 400, 404,
429, 500 and carries its message in the JSON body. -/
theorem C4_status_mapping (keys : List String) (choice : Nat) (api : ApiOutcome)
    (convDur : String → Nat) (urlParam : Option String) :
    (urlParam = none →
      get_video_info keys choice api convDur urlParam
        = .errJson 400 "URL parameter is required")
    ∧ (∀ url vid, urlParam = some url → extract_video_id url = .ok vid → keys ≠ [] →
        (api = .success [] →
          get_video_info keys choice api convDur urlParam
            = .errJson 404 "Video not found")
        ∧ (∀ m, api = .httpError 403 m →
          get_video_info keys choice api convDur urlParam
            = .errJson 429 "YouTube API quota exceeded or API key invalid")
        ∧ (∀ s m, api = .httpError s m → s ≠ 403 →
          get_video_info keys choice api convDur urlParam = .errJson 500 m)
        ∧ (∀ m, api = .exc m →
          get_video_info keys choice api convDur urlParam = .errJson 500 m))
    ∧ (∀ s m, get_video_info keys choice api convDur urlParam = .errJson s m →
        s = 400 ∨ s = 404 ∨ s = 429 ∨ s = 500) := by
  refine ⟨?_, ?_, ?_⟩
  · intro h; subst h; rfl
  · intro url vid hu hx hk
    subst hu
    have hke : keys.isEmpty = false := by
      cases keys with
      | nil => exact absurd rfl hk
      | cons a as => rfl
    refine ⟨?_, ?_, ?_, ?_⟩
    · intro ha; subst ha
      simp [get_video_info, get_random_api_key, hx, hke]
    · intro m ha; subst ha
      simp [get_video_info, get_random_api_key, hx, hke]
    · intro s m ha hs; subst ha
      simp [get_video_info, get_random_api_key, hx, hke, hs]
    · intro m ha; subst ha
      simp [get_video_info, get_random_api_key, hx, hke]
  · intro s m h
    unfold get_video_info at h
    split at h
    · cases h; left; rfl
    · split at h
      · cases h; right; right; right; rfl
      · split at h
        · cases h; right; right; right; rfl
        · split at h
          · split at h
            · cases h; right; right; left; rfl
            · cases h; right; right; right; rfl
          · cases h; right; right; right; rfl
          · split at h
            · cases h; right; left; rfl
            · exact InfoResp.noConfusion h

/-- Witness for `C4_status_mapping`: the missing-`url` case at concrete
arguments. -/
theorem C4_witness :
    get_video_info ["k"] 0 (.success []) (fun _ => 0) none
      = .errJson 400 "URL parameter is required" :=
  (C4_status_mapping ["k"] 0 (.success []) (fun _ => 0) none).1 rfl

/-- Claim C8: a metadata-resolution failure is non-fatal for the
download handler — the title probe failing only defaults the name to
`audio.mp3` and the request still succeeds — while for the info endpoint
a failing provider call is fatal and surfaces as an error response. -/
theorem C8_metadata_failure_fatality
    (env : DlEnv) (uid ext url url2 : String) (fs0 : List String)
    (keys : List String) (choice : Nat) (convDur : String → Nat) (m : String)
    (hinfo : env.infoTitle = none)
    (hdl : env.download = .ok ext)
    (hext : ext ≠ "mp3")
    (hff : env.ffmpegOk = true)
    (hcr : env.ffmpegCreates = true)
    (h0 : ∀ f ∈ fs0, pyStartsWith uid f = false) :
    (download_audio env uid fs0 (some url)).result
        = .ok (uid ++ ".mp3") ("audio" ++ ".mp3")
    ∧ ∃ s msg, get_video_info keys choice (.exc m) convDur (some url2)
        = .errJson s msg := by
  constructor
  · have h := (download_success_eval env uid ext url fs0 hdl hext hff hcr h0).1
    rw [hinfo] at h
    exact h
  · cases hx : extract_video_id url2 with
    | error e => exact ⟨500, pyErrMsg e, by simp [get_video_info, hx]⟩
    | ok vid =>
      cases hke : keys.isEmpty with
      | true =>
        exact ⟨500, "No YouTube API keys available",
          by simp [get_video_info, get_random_api_key, hx, hke]⟩
      | false =>
        exact ⟨500, m, by simp [get_video_info, get_random_api_key, hx, hke]⟩

/-- Witness for `C8_metadata_failure_fatality` at a concrete
environment. -/
theorem C8_witness :
    (download_audio ⟨none, Except.ok "m4a", true, "", true, true⟩
        "idx" [] (some "u")).result = .ok ("idx" ++ ".mp3") ("audio" ++ ".mp3")
    ∧ ∃ s msg, get_video_info ["k"] 0 (.exc "socket timeout") (fun _ => 0)
        (some "https://youtu.be/abc") = .errJson s msg :=
  C8_metadata_failure_fatality ⟨none, Except.ok "m4a", true, "", true, true⟩
    "idx" "m4a" "u" "https://youtu.be/abc" [] ["k"] 0 (fun _ => 0) "socket timeout"
    rfl rfl (by decide) rfl rfl (by simp)

/-- Claim C9: the key-pool acquire fails exactly when no keys are
configured; with a nonempty pool every draw returns a member of the
pool, and every configured entry is reachable by some draw — the
selection is over all entries, not a fixed rotation. -/
theorem C9_acquire (keys : List String) (choice : Nat) :
    (get_random_api_key keys choice = .error "No YouTube API keys available"
        ↔ keys = [])
    ∧ (keys ≠ [] → ∃ k, get_random_api_key keys choice = .ok k ∧ k ∈ keys)
    ∧ (∀ i, (h : i < keys.length) →
        ∃ c, get_random_api_key keys c = .ok keys[i]) := by
  refine ⟨⟨?_, ?_⟩, ?_, ?_⟩
  · intro h
    by_cases hk : keys = []
    · exact hk
    · have hke : keys.isEmpty = false := by
        cases keys with
        | nil => exact absurd rfl hk
        | cons a as => rfl
      simp [get_random_api_key, hke] at h
  · intro h; subst h; rfl
  · intro hk
    have hke : keys.isEmpty = false := by
      cases keys with
      | nil => exact absurd rfl hk
      | cons a as => rfl
    have hlen : 0 < keys.length := by
      cases keys with
      | nil => exact absurd rfl hk
      | cons a as => simp
    have hm : choice % keys.length < keys.length := Nat.mod_lt _ hlen
    refine ⟨keys.getD (choice % keys.length) "", ?_, ?_⟩
    · simp [get_random_api_key, hke]
    · simp only [List.getD_eq_getElem?_getD, List.getElem?_eq_getElem hm,
        Option.getD_some]
      exact List.getElem_mem hm
  · intro i h
    have hke : keys.isEmpty = false := by
      cases keys with
      | nil => simp at h
      | cons a as => rfl
    refine ⟨i, ?_⟩
    have hmod : i % keys.length = i := Nat.mod_eq_of_lt h
    simp [get_random_api_key, hke, hmod, List.getD_eq_getElem?_getD,
      List.getElem?_eq_getElem h]

/-- Witness for `C9_acquire`: with two keys configured, a draw returns a
pool member, and the second entry is reachable. -/
theorem C9_witness :
    (∃ k, get_random_api_key ["a", "b"] 5 = .ok k ∧ k ∈ ["a", "b"])
    ∧ ∃ c, get_random_api_key ["a", "b"] c = .ok "b" := by
  refine ⟨(C9_acquire ["a", "b"] 5).2.1 (by decide), ?_⟩
  have h := (C9_acquire ["a", "b"] 5).2.2 1 (by decide)
  exact h

/-- Claim C10: in the structured-provider path of the info endpoint, an
item whose statistics lack a view count yields 0 in the `views` field,
while title, author, description and thumbnail are taken directly from
the provider response (and the duration through the conversion). -/
theorem C10_absent_viewcount_defaults_zero
    (keys : List String) (choice : Nat) (convDur : String → Nat)
    (url vid : String) (v : ProviderVideo) (rest : List ProviderVideo)
    (hx : extract_video_id url = .ok vid) (hk : keys ≠ [])
    (hv : v.viewCount = none) :
    get_video_info keys choice (.success (v :: rest)) convDur (some url)
      = .okJson ⟨v.title, v.author, v.description, v.thumbUrl, 0,
          convDur v.duration⟩ := by
  have hke : keys.isEmpty = false := by
    cases keys with
    | nil => exact absurd rfl hk
    | cons a as => rfl
  simp [get_video_info, get_random_api_key, hx, hke, hv]

/-- Witness for `C10_absent_viewcount_defaults_zero` at a concrete
provider item with no view count. -/
theorem C10_witness :
    get_video_info ["k"] 0 (.success [⟨"T", "A", "D", "U", none, "PT1M"⟩])
        (fun _ => 60) (some "https://youtu.be/abc")
      = .okJson ⟨"T", "A", "D", "U", 0, 60⟩ :=
  C10_absent_viewcount_defaults_zero ["k"] 0 (fun _ => 60)
    "https://youtu.be/abc" "abc" ⟨"T", "A", "D", "U", none, "PT1M"⟩ []
    (by decide) (by decide) rfl
